import Mathlib

/-!
Verification of the DebateIQ debate-arena logic.

The definitions below are a shallow embedding of the TypeScript sources:
  * `frontend/src/components/DebateArena.tsx` (session-view state machine),
  * `frontend/src/components/DebateSetup.tsx` (setup defaults),
  * `frontend/src/components/Scoreboard.tsx` (score display),
  * `frontend/src/services/api.ts` (SSE stream client).
Backend pieces that are not part of the source tree (the orchestrator's
session status machine and the judge's aggregation) are modelled from the
specification and are marked as such in their doc comments.
-/

/-- `DebateRole` from `types/index.ts`. -/
inductive DebateRole where
  | moderator
  | participant
  | user
deriving DecidableEq, Repr

/-- `MessageType` from `types/index.ts`. -/
inductive MessageType where
  | opening
  | argument
  | rebuttal
  | closing
  | question
  | answer
  | moderator
deriving DecidableEq, Repr

/-- `DebateMode` from `types/index.ts`: the two debate modes. -/
inductive DebateMode where
  | userVsFigure
  | figureVsFigure
deriving DecidableEq, Repr

/-- Winner designation used by the judge (`'user' | 'ai' | 'tie'`). -/
inductive Winner where
  | user
  | ai
  | tie
deriving DecidableEq, Repr

/-- `DebateMessage` from `types/index.ts` (with the optional `audio_url`). -/
structure DebateMessage where
  id : String
  session_id : String
  speaker_id : String
  speaker_name : String
  role : DebateRole
  message_type : MessageType
  content : String
  timestamp : String
  turn_number : Nat
  audio_url : Option String
deriving DecidableEq, Repr

/-- Per-side `Scores` consumed by `ScoreCard.tsx`: five criteria and a total. -/
structure Scores where
  logic : Nat
  factual_accuracy : Nat
  rhetoric : Nat
  relevance : Nat
  rebuttal : Nat
  total : Nat
deriving DecidableEq, Repr

/-- `JudgeEvaluation` as consumed by `DebateArena.tsx`. -/
structure JudgeEvaluation where
  user_scores : Scores
  ai_scores : Scores
  winner : Winner
  winner_reason : String
deriving DecidableEq, Repr

/-- `CumulativeScores` as consumed by `DebateArena.tsx` and `Scoreboard.tsx`. -/
structure CumulativeScores where
  user_cumulative_score : Nat
  ai_cumulative_score : Nat
  exchanges_evaluated : Nat
  overall_winner : Winner
  score_difference : Nat
deriving DecidableEq, Repr

/-- JavaScript `String.prototype.trim()`: strips leading and trailing
whitespace (used by the guards in `DebateArena.tsx` and `DebateSetup.tsx`). -/
def jsTrim (s : String) : String :=
  String.mk
    (((s.data.dropWhile Char.isWhitespace).reverse.dropWhile
        Char.isWhitespace).reverse)

/-- JavaScript `x || d` on an optional string: the default replaces both a
missing value and the empty string (both are falsy). -/
def jsOrDefault (x : Option String) (d : String) : String :=
  match x with
  | none => d
  | some s => if s = "" then d else s

/-- `MAX_USER_TURNS` from `DebateArena.tsx` line 12. -/
def MAX_USER_TURNS : Nat := 4

/-- The hard-coded limit-reached error text used by `handleSendMessage`,
`sendVoiceMessage` and `startRecording` in `DebateArena.tsx`. -/
def turnLimitErrorMessage : String :=
  "You have reached the maximum number of turns (6)."

/-- Default of the `maxTurns` selector in `DebateSetup.tsx` (`useState(6)`). -/
def defaultMaxTurns : Nat := 6

/-- The selectable `maxTurns` options in `DebateSetup.tsx` lines 114 to 117. -/
def maxTurnOptions : List Nat := [4, 6, 8, 10]

/-- The React state of the `DebateArena` component (its `useState` hooks). -/
structure ArenaState where
  messages : List DebateMessage
  error : Option String
  userInput : String
  isSendingMessage : Bool
  isRecording : Bool
  recordingTime : Nat
  userTurnCount : Nat
  currentTurn : Nat
  maxTurns : Nat
  isGeneratingTurn : Bool
  latestEvaluation : Option JudgeEvaluation
  cumulativeScores : Option CumulativeScores
  showGameOver : Bool
deriving Repr

/-- The initial `useState` values of `DebateArena`. -/
def initialArenaState : ArenaState where
  messages := []
  error := none
  userInput := ""
  isSendingMessage := false
  isRecording := false
  recordingTime := 0
  userTurnCount := 0
  currentTurn := 0
  maxTurns := MAX_USER_TURNS
  isGeneratingTurn := false
  latestEvaluation := none
  cumulativeScores := none
  showGameOver := false

/-- `hasReachedLimit` from `DebateArena.tsx` line 54:
`userTurnCount >= MAX_USER_TURNS`. -/
def hasReachedLimit (s : ArenaState) : Bool :=
  decide (MAX_USER_TURNS ≤ s.userTurnCount)

/-- The fields of the `/message` endpoint response that `handleSendMessage`
reads, plus the `Date.now()` value used for the local user-message id. -/
structure SendResponse where
  now : String
  user_content : String
  user_timestamp : String
  ai_id : String
  ai_speaker_name : String
  ai_content : String
  ai_timestamp : String
  ai_audio_url : Option String
deriving Repr

/-- The user message built by `handleSendMessage` (turn number is
`messages.length + 1`). -/
def mkUserMessage (sessionId : String) (len : Nat) (resp : SendResponse) :
    DebateMessage where
  id := "user-" ++ resp.now
  session_id := sessionId
  speaker_id := "user"
  speaker_name := "You"
  role := DebateRole.user
  message_type := MessageType.argument
  content := resp.user_content
  timestamp := resp.user_timestamp
  turn_number := len + 1
  audio_url := none

/-- The AI message built by `handleSendMessage` (turn number is
`messages.length + 2`; speaker id is `participants[0] || "agent"`). -/
def mkAiMessage (sessionId : String) (participants : List String) (len : Nat)
    (resp : SendResponse) : DebateMessage where
  id := resp.ai_id
  session_id := sessionId
  speaker_id := jsOrDefault participants.head? "agent"
  speaker_name := resp.ai_speaker_name
  role := DebateRole.participant
  message_type := MessageType.argument
  content := resp.ai_content
  timestamp := resp.ai_timestamp
  turn_number := len + 2
  audio_url := resp.ai_audio_url

/-- `handleSendMessage` from `DebateArena.tsx` lines 265 to 327, success path:
guards on empty input / in-flight send, then on the turn limit (setting the
hard-coded error), otherwise appends the user and AI messages, bumps
`userTurnCount`, clears the input, and schedules the game-over dialog when the
new count reaches `MAX_USER_TURNS`. -/
def handleSendMessage (sessionId : String) (participants : List String)
    (s : ArenaState) (resp : SendResponse) : ArenaState :=
  if jsTrim s.userInput = "" ∨ s.isSendingMessage = true then s
  else if hasReachedLimit s = true then
    { s with error := some turnLimitErrorMessage }
  else
    let len := s.messages.length
    { s with
      messages := s.messages ++
        [mkUserMessage sessionId len resp,
         mkAiMessage sessionId participants len resp],
      userTurnCount := s.userTurnCount + 1,
      error := none,
      userInput := "",
      showGameOver :=
        if MAX_USER_TURNS ≤ s.userTurnCount + 1 then true else s.showGameOver }

/-- `handleSendMessage` when the API call throws: the catch branch only sets
the error text; nothing is appended. -/
def handleSendMessageFailure (sessionId : String) (s : ArenaState)
    (e : String) : ArenaState :=
  if jsTrim s.userInput = "" ∨ s.isSendingMessage = true then s
  else if hasReachedLimit s = true then
    { s with error := some turnLimitErrorMessage }
  else { s with error := some e }

/-- `sendVoiceMessage` from `DebateArena.tsx` lines 193 to 262, success path:
same limit guard and same two appended messages as `handleSendMessage`. -/
def sendVoiceMessage (sessionId : String) (participants : List String)
    (s : ArenaState) (resp : SendResponse) : ArenaState :=
  if hasReachedLimit s = true then
    { s with error := some turnLimitErrorMessage }
  else
    let len := s.messages.length
    { s with
      messages := s.messages ++
        [mkUserMessage sessionId len resp,
         mkAiMessage sessionId participants len resp],
      userTurnCount := s.userTurnCount + 1,
      error := none,
      showGameOver :=
        if MAX_USER_TURNS ≤ s.userTurnCount + 1 then true else s.showGameOver }

/-- `startRecording` from `DebateArena.tsx` lines 106 to 148: rejected with the
hard-coded error when the limit is reached, otherwise starts recording. -/
def startRecording (s : ArenaState) : ArenaState :=
  if hasReachedLimit s = true then
    { s with error := some turnLimitErrorMessage }
  else { s with isRecording := true, recordingTime := 0 }

/-- The optional fields of `response.message` read by `generateNextTurn`. -/
structure TurnMessagePayload where
  id : Option String
  speaker_id : Option String
  speaker_name : Option String
  content : Option String
  timestamp : Option String
  audio_url : Option String
deriving Repr

/-- The `/next` endpoint response read by `generateNextTurn`. -/
structure TurnResponse where
  message : TurnMessagePayload
  current_turn : Nat
  max_turns : Nat
deriving Repr

/-- The participant message built by `generateNextTurn` (`newMessage`): every
missing response field falls back to a default, the turn number is
`messages.length + 1`. -/
def mkAutoMessage (sessionId now : String) (len : Nat)
    (payload : TurnMessagePayload) : DebateMessage where
  id := jsOrDefault payload.id ("msg-" ++ now)
  session_id := sessionId
  speaker_id := jsOrDefault payload.speaker_id "unknown"
  speaker_name := jsOrDefault payload.speaker_name "AI"
  role := DebateRole.participant
  message_type := MessageType.argument
  content := jsOrDefault payload.content ""
  timestamp := jsOrDefault payload.timestamp now
  turn_number := len + 1
  audio_url := payload.audio_url

/-- `generateNextTurn` from `DebateArena.tsx` lines 337 to 384, success path:
only runs in figure-vs-figure mode when no generation is in flight; appends one
participant message at turn number `messages.length + 1`, adopts the response's
`current_turn` and `max_turns`, and schedules the game-over dialog when
`current_turn >= max_turns * 2`. -/
def generateNextTurn (sessionId : String) (mode : DebateMode)
    (now : String) (s : ArenaState) (resp : TurnResponse) : ArenaState :=
  if mode ≠ DebateMode.figureVsFigure then s
  else if s.isGeneratingTurn = true then s
  else
    { s with
      messages := s.messages ++
        [mkAutoMessage sessionId now s.messages.length resp.message],
      error := none,
      currentTurn := resp.current_turn,
      maxTurns := resp.max_turns,
      showGameOver :=
        if resp.max_turns * 2 ≤ resp.current_turn then true
        else s.showGameOver }

/-- `evaluateLastExchange` from `DebateArena.tsx` lines 150 to 177: needs at
least two messages, finds the user and participant messages among the last two,
then either records the evaluation and cumulative scores (success) or — the
catch branch — changes nothing beyond logging. `result = none` models the
failed `evaluateExchange` call. -/
def evaluateLastExchange (s : ArenaState)
    (result : Option (JudgeEvaluation × CumulativeScores)) : ArenaState :=
  if s.messages.length < 2 then s
  else
    match (s.messages.drop (s.messages.length - 2)).find?
            (fun m => m.role = DebateRole.user),
          (s.messages.drop (s.messages.length - 2)).find?
            (fun m => m.role = DebateRole.participant) with
    | some _, some _ =>
      match result with
      | some (ev, cum) =>
        { s with latestEvaluation := some ev, cumulativeScores := some cum }
      | none => s
    | _, _ => s

/-- `getNextSpeaker` from `DebateArena.tsx` lines 414 to 418: `null` unless in
figure-vs-figure mode with at least two participants, otherwise
`participants[messages.length % 2]`. -/
def getNextSpeaker (mode : DebateMode) (participants : List String)
    (messages : List DebateMessage) : Option String :=
  if mode ≠ DebateMode.figureVsFigure ∨ participants.length < 2 then none
  else participants[messages.length % 2]?

/-- The `disabled` condition of the Next Turn button in `DebateArena.tsx`
line 719: `isSendingMessage || isGeneratingTurn || currentTurn >= maxTurns*2`. -/
def nextTurnDisabled (s : ArenaState) : Bool :=
  s.isSendingMessage || s.isGeneratingTurn ||
    decide (s.maxTurns * 2 ≤ s.currentTurn)

/-- The `disabled` condition of the message textarea and microphone button in
`DebateArena.tsx` lines 782 and 787: `isSendingMessage || hasReachedLimit`. -/
def sendControlsDisabled (s : ArenaState) : Bool :=
  s.isSendingMessage || hasReachedLimit s

/-- N successful text-message turn-advances in user-vs-figure mode: each step
is a `handleSendMessage` call whose guards pass (non-blank input, no send in
flight, limit not reached). -/
inductive UserAdvances (sessionId : String) (participants : List String) :
    ArenaState → Nat → ArenaState → Prop where
  | zero (s : ArenaState) : UserAdvances sessionId participants s 0 s
  | typeInput (s : ArenaState) (n : Nat) (t : ArenaState) (input : String) :
      UserAdvances sessionId participants s n t →
      UserAdvances sessionId participants s n { t with userInput := input }
  | succ (s : ArenaState) (n : Nat) (t : ArenaState) (resp : SendResponse) :
      UserAdvances sessionId participants s n t →
      jsTrim t.userInput ≠ "" →
      t.isSendingMessage = false →
      hasReachedLimit t = false →
      UserAdvances sessionId participants s (n + 1)
        (handleSendMessage sessionId participants t resp)

/-- N successful single-speaker turn-advances in figure-vs-figure mode: each
step is a `generateNextTurn` call whose guards pass. -/
inductive AutoAdvances (sessionId : String) :
    ArenaState → Nat → ArenaState → Prop where
  | zero (s : ArenaState) : AutoAdvances sessionId s 0 s
  | succ (s : ArenaState) (n : Nat) (t : ArenaState) (now : String)
      (resp : TurnResponse) :
      AutoAdvances sessionId s n t →
      t.isGeneratingTurn = false →
      AutoAdvances sessionId s (n + 1)
        (generateNextTurn sessionId DebateMode.figureVsFigure now t resp)

/-- Arena states reachable from the initial component state through the
operations of `DebateArena.tsx` (text send, failed send, voice send, recording
start, automatic figure turn, judge evaluation). -/
inductive ArenaReachable (sessionId : String) (participants : List String)
    (mode : DebateMode) : ArenaState → Prop where
  | init : ArenaReachable sessionId participants mode initialArenaState
  | typeInput (s : ArenaState) (input : String) :
      ArenaReachable sessionId participants mode s →
      ArenaReachable sessionId participants mode { s with userInput := input }
  | send (s : ArenaState) (resp : SendResponse) :
      ArenaReachable sessionId participants mode s →
      ArenaReachable sessionId participants mode
        (handleSendMessage sessionId participants s resp)
  | sendFail (s : ArenaState) (e : String) :
      ArenaReachable sessionId participants mode s →
      ArenaReachable sessionId participants mode
        (handleSendMessageFailure sessionId s e)
  | voice (s : ArenaState) (resp : SendResponse) :
      ArenaReachable sessionId participants mode s →
      ArenaReachable sessionId participants mode
        (sendVoiceMessage sessionId participants s resp)
  | record (s : ArenaState) :
      ArenaReachable sessionId participants mode s →
      ArenaReachable sessionId participants mode (startRecording s)
  | auto (s : ArenaState) (now : String) (resp : TurnResponse) :
      ArenaReachable sessionId participants mode s →
      ArenaReachable sessionId participants mode
        (generateNextTurn sessionId mode now s resp)
  | eval (s : ArenaState) (r : Option (JudgeEvaluation × CumulativeScores)) :
      ArenaReachable sessionId participants mode s →
      ArenaReachable sessionId participants mode (evaluateLastExchange s r)

/-- Modelled from the spec: the backend `advance_turn_auto` response for the
per-message turn counter — "Increments turn" (§4.1) with the configured
`max_turns` unchanged; the orchestrator source is not under `src/`, only its
frontend caller `generateNextTurn` is. -/
def backendAutoResponse (s : ArenaState) (payload : TurnMessagePayload) :
    TurnResponse where
  message := payload
  current_turn := s.currentTurn + 1
  max_turns := s.maxTurns

/-- Figure-vs-figure arena states reachable by clicking the Next Turn button:
the click is only possible while the button is enabled (`nextTurnDisabled`
false, from the source), and the backend reply is `backendAutoResponse`
(modelled from the spec). -/
inductive FigureReachable (sessionId : String) : ArenaState → Prop where
  | init : FigureReachable sessionId initialArenaState
  | next (s : ArenaState) (payload : TurnMessagePayload) (now : String) :
      FigureReachable sessionId s →
      nextTurnDisabled s = false →
      FigureReachable sessionId
        (generateNextTurn sessionId DebateMode.figureVsFigure now s
          (backendAutoResponse s payload))

/-- `status ∈ {waiting, active, completed}` of a backend `DebateSession`. -/
inductive SessionStatus where
  | waiting
  | active
  | completed
deriving DecidableEq, Repr

/-- The error taxonomy of the orchestrator relevant to turn advancement. -/
inductive DebateError where
  | SessionNotFound
  | SessionCompleted
  | UpstreamAgentError
deriving DecidableEq, Repr

/-- Rank of a session status along the `waiting → active → completed` chain. -/
def statusRank : SessionStatus → Nat
  | SessionStatus.waiting => 0
  | SessionStatus.active => 1
  | SessionStatus.completed => 2

/-- The backend `DebateSession` record from `types/index.ts`. -/
structure Session where
  id : String
  topic : String
  participants : List String
  status : SessionStatus
  messages : List DebateMessage
  current_turn : Nat
  max_turns : Nat
deriving DecidableEq, Repr

/-- Modelled from the spec: the Turn Orchestrator's turn-advance operation
(§4.1), whose backend source is not under `src/`: it "requires session exists
and status ≠ completed" (failing with `SessionCompleted` and appending
nothing), otherwise appends the produced messages, increments the turn counter,
and the session completes when the counter reaches the configured limit
(`max_turns` multiplied by the participant count, §3). -/
def advanceTurn (s : Session) (newMsgs : List DebateMessage) :
    Except DebateError Session :=
  if s.status = SessionStatus.completed then
    Except.error DebateError.SessionCompleted
  else
    let turn' := s.current_turn + 1
    Except.ok
      { s with
        messages := s.messages ++ newMsgs,
        current_turn := turn',
        status :=
          if s.max_turns * s.participants.length ≤ turn' then
            SessionStatus.completed
          else SessionStatus.active }

/-- Modelled from the spec: the Judge adapter "determines winner by
total-score comparison (strictly greater wins; equal totals = tie)" (§4.3);
the judge source is not under `src/`, only its frontend consumers are. -/
def decideWinner (userTotal aiTotal : Nat) : Winner :=
  if aiTotal < userTotal then Winner.user
  else if userTotal < aiTotal then Winner.ai
  else Winner.tie

/-- Modelled from the spec: `evaluate_exchange` "computes totals" (§4.3) — the
per-side total is the sum of the five fixed criteria. -/
def computedTotal (logic facts rhetoric relevance rebuttal : Nat) : Nat :=
  logic + facts + rhetoric + relevance + rebuttal

/-- Modelled from the spec: `get_cumulative` "folds all evaluations recorded
for a session into running sums and a leader designation; pure aggregation"
(§4.3); the backend source is not under `src/`. -/
def getCumulative (evals : List JudgeEvaluation) : CumulativeScores :=
  let u := (evals.map (fun e => e.user_scores.total)).sum
  let a := (evals.map (fun e => e.ai_scores.total)).sum
  { user_cumulative_score := u
    ai_cumulative_score := a
    exchanges_evaluated := evals.length
    overall_winner := decideWinner u a
    score_difference := max u a - min u a }

/-- The `StreamedDebateMessage` event shapes from `types/index.ts`, as
dispatched on by the SSE handler in `api.ts`. -/
inductive StreamEvent where
  | debateMessage (m : DebateMessage)
  | statusNote (msg : String)
  | errorEvent (msg : String)
  | complete
deriving Repr

/-- Terminal outcome of the SSE stream client. -/
inductive StreamOutcome where
  | completed
  | errored (msg : String)
  | exhausted
deriving DecidableEq, Repr

/-- The `streamDebate` SSE handler from `api.ts` lines 364 to 416, as a fold
over the incoming event list: a `complete` event fires `onComplete` and closes
the source (no later event is processed), an `error` event fires `onError`
with the message and closes the source, a `debate_message` event is delivered
via `onMessage`, and any other event type falls through unhandled. Returns the
delivered messages in order together with the terminal outcome. -/
def processStream : List StreamEvent → List DebateMessage × StreamOutcome
  | [] => ([], StreamOutcome.exhausted)
  | StreamEvent.complete :: _ => ([], StreamOutcome.completed)
  | StreamEvent.errorEvent msg :: _ => ([], StreamOutcome.errored msg)
  | StreamEvent.debateMessage m :: rest =>
    let r := processStream rest
    (m :: r.1, r.2)
  | StreamEvent.statusNote _ :: rest => processStream rest

/-- Modelled from the spec: `start_streaming` "pushes every new Message to the
streaming channel as it is produced" and "if the upstream agent call fails at
any step, emits an error event and halts — no retry, no partial rollback"
(§4.1); on normal termination it "terminates with a completion signal". The
backend source is not under `src/`, only the SSE client is. -/
def serverStream (produced : List DebateMessage) (failure : Option String) :
    List StreamEvent :=
  produced.map StreamEvent.debateMessage ++
    (match failure with
     | some msg => [StreamEvent.errorEvent msg]
     | none => [StreamEvent.complete])

/-- The data computed by `Scoreboard.tsx` when it renders scores. -/
structure ScoreboardView where
  userScore : Nat
  aiScore : Nat
  userPercentage : Rat
  aiPercentage : Rat
deriving DecidableEq, Repr

/-- `Scoreboard` from `Scoreboard.tsx` lines 8 to 24: renders the
"No evaluations yet" placeholder (here `none`) when there are no cumulative
scores or no exchange has been evaluated; otherwise computes the percentage
split, falling back to 50/50 when the total is zero. -/
def scoreboardView (cumulativeScores : Option CumulativeScores) :
    Option ScoreboardView :=
  match cumulativeScores with
  | none => none
  | some c =>
    if c.exchanges_evaluated = 0 then none
    else
      let userScore : Rat := c.user_cumulative_score
      let aiScore : Rat := c.ai_cumulative_score
      let totalScore := userScore + aiScore
      some
        { userScore := c.user_cumulative_score
          aiScore := c.ai_cumulative_score
          userPercentage :=
            if 0 < totalScore then userScore / totalScore * 100 else 50
          aiPercentage :=
            if 0 < totalScore then aiScore / totalScore * 100 else 50 }

/-- The invariant relating turn numbers to list positions: the message at
0-based index `i` carries turn number `i + 1`. -/
def turnNumbersCanonical (msgs : List DebateMessage) : Prop :=
  ∀ i (h : i < msgs.length), (msgs.get ⟨i, h⟩).turn_number = i + 1

/-- A concrete `/message` response used to exercise the theorems. -/
def demoSend : SendResponse where
  now := "0"
  user_content := "hello"
  user_timestamp := "0"
  ai_id := "m1"
  ai_speaker_name := "Abraham Lincoln"
  ai_content := "a reply"
  ai_timestamp := "1"
  ai_audio_url := none

/-- The arena right after the user typed a first argument. -/
def demoStart : ArenaState := { initialArenaState with userInput := "hello" }

/-- The arena after one successful text send. -/
def demoS1 : ArenaState := handleSendMessage "s1" ["lincoln"] demoStart demoSend

/-- The arena after typing a second argument. -/
def demoS1Typed : ArenaState := { demoS1 with userInput := "again" }

/-- The arena after a second successful text send. -/
def demoS2 : ArenaState :=
  handleSendMessage "s1" ["lincoln"] demoS1Typed demoSend

/-- The arena after typing a third argument. -/
def demoS2Typed : ArenaState := { demoS2 with userInput := "third" }

/-- The arena after a third successful text send. -/
def demoS3 : ArenaState :=
  handleSendMessage "s1" ["lincoln"] demoS2Typed demoSend

/-- The arena after typing a fourth argument. -/
def demoS3Typed : ArenaState := { demoS3 with userInput := "fourth" }

/-- The arena after the fourth successful text send. -/
def demoS4 : ArenaState :=
  handleSendMessage "s1" ["lincoln"] demoS3Typed demoSend

/-- The scoreboard view expected for `demoCum` (30 versus 10 points). -/
def demoView : ScoreboardView where
  userScore := 30
  aiScore := 10
  userPercentage := 75
  aiPercentage := 25

/-- A concrete `/next` response payload with no optional field present. -/
def demoPayload : TurnMessagePayload where
  id := none
  speaker_id := none
  speaker_name := none
  content := none
  timestamp := none
  audio_url := none

/-- The arena after one figure-vs-figure turn driven by the modelled backend. -/
def demoF1 : ArenaState :=
  generateNextTurn "s1" DebateMode.figureVsFigure "0" initialArenaState
    (backendAutoResponse initialArenaState demoPayload)

/-- An arena state whose user already used the four allowed turns. -/
def demoLimitState : ArenaState :=
  { initialArenaState with userTurnCount := 4, userInput := "one more" }

/-- An arena state at the figure-vs-figure message limit. -/
def demoAtLimit : ArenaState := { initialArenaState with currentTurn := 8 }

/-- A concrete completed backend session. -/
def demoCompletedSession : Session where
  id := "d1"
  topic := "Should AI be regulated?"
  participants := ["lincoln"]
  status := SessionStatus.completed
  messages := []
  current_turn := 4
  max_turns := 4

/-- A concrete waiting backend session. -/
def demoWaitingSession : Session where
  id := "d2"
  topic := "Should AI be regulated?"
  participants := ["lincoln"]
  status := SessionStatus.waiting
  messages := []
  current_turn := 0
  max_turns := 4

/-- `demoWaitingSession` after one turn-advance. -/
def demoAdvancedSession : Session :=
  { demoWaitingSession with
    current_turn := 1, status := SessionStatus.active }

/-- Concrete cumulative scores for the scoreboard theorems. -/
def demoCum : CumulativeScores where
  user_cumulative_score := 30
  ai_cumulative_score := 10
  exchanges_evaluated := 1
  overall_winner := Winner.user
  score_difference := 20

/-- Two concrete judge evaluations for the aggregation theorems. -/
def demoEvals : List JudgeEvaluation :=
  [{ user_scores := ⟨8, 7, 6, 9, 5, 35⟩
     ai_scores := ⟨7, 8, 7, 7, 7, 36⟩
     winner := Winner.ai
     winner_reason := "stronger rebuttal" },
   { user_scores := ⟨9, 8, 8, 9, 8, 42⟩
     ai_scores := ⟨6, 7, 6, 7, 6, 32⟩
     winner := Winner.user
     winner_reason := "better logic" }]

/-! ### Helper lemmas about the arena operations -/

theorem handleSendMessage_success (sessionId : String)
    (participants : List String) (s : ArenaState) (resp : SendResponse)
    (h1 : jsTrim s.userInput ≠ "") (h2 : s.isSendingMessage = false)
    (h3 : hasReachedLimit s = false) :
    handleSendMessage sessionId participants s resp =
      { s with
        messages := s.messages ++
          [mkUserMessage sessionId s.messages.length resp,
           mkAiMessage sessionId participants s.messages.length resp],
        userTurnCount := s.userTurnCount + 1,
        error := none,
        userInput := "",
        showGameOver :=
          if MAX_USER_TURNS ≤ s.userTurnCount + 1 then true
          else s.showGameOver } := by
  unfold handleSendMessage
  rw [if_neg (by simp [h1, h2]), if_neg (by simp [h3])]

theorem handleSendMessage_limited (sessionId : String)
    (participants : List String) (s : ArenaState) (resp : SendResponse)
    (h : hasReachedLimit s = true) :
    (handleSendMessage sessionId participants s resp).messages = s.messages ∧
    (handleSendMessage sessionId participants s resp).userTurnCount =
      s.userTurnCount := by
  unfold handleSendMessage
  by_cases hg : jsTrim s.userInput = "" ∨ s.isSendingMessage = true
  · rw [if_pos hg]; exact ⟨rfl, rfl⟩
  · rw [if_neg hg, if_pos h]; exact ⟨rfl, rfl⟩

theorem handleSendMessage_messages_cases (sessionId : String)
    (participants : List String) (s : ArenaState) (resp : SendResponse) :
    (handleSendMessage sessionId participants s resp).messages = s.messages ∨
    (handleSendMessage sessionId participants s resp).messages =
      s.messages ++
        [mkUserMessage sessionId s.messages.length resp,
         mkAiMessage sessionId participants s.messages.length resp] := by
  unfold handleSendMessage
  split
  · exact Or.inl rfl
  · split
    · exact Or.inl rfl
    · exact Or.inr rfl

theorem handleSendMessageFailure_messages (sessionId : String)
    (s : ArenaState) (e : String) :
    (handleSendMessageFailure sessionId s e).messages = s.messages := by
  unfold handleSendMessageFailure
  split
  · rfl
  · split <;> rfl

theorem sendVoiceMessage_success (sessionId : String)
    (participants : List String) (s : ArenaState) (resp : SendResponse)
    (h : hasReachedLimit s = false) :
    sendVoiceMessage sessionId participants s resp =
      { s with
        messages := s.messages ++
          [mkUserMessage sessionId s.messages.length resp,
           mkAiMessage sessionId participants s.messages.length resp],
        userTurnCount := s.userTurnCount + 1,
        error := none,
        showGameOver :=
          if MAX_USER_TURNS ≤ s.userTurnCount + 1 then true
          else s.showGameOver } := by
  unfold sendVoiceMessage
  rw [if_neg (by simp [h])]

theorem sendVoiceMessage_limited (sessionId : String)
    (participants : List String) (s : ArenaState) (resp : SendResponse)
    (h : hasReachedLimit s = true) :
    sendVoiceMessage sessionId participants s resp =
      { s with error := some turnLimitErrorMessage } := by
  unfold sendVoiceMessage
  rw [if_pos h]

theorem sendVoiceMessage_messages_cases (sessionId : String)
    (participants : List String) (s : ArenaState) (resp : SendResponse) :
    (sendVoiceMessage sessionId participants s resp).messages = s.messages ∨
    (sendVoiceMessage sessionId participants s resp).messages =
      s.messages ++
        [mkUserMessage sessionId s.messages.length resp,
         mkAiMessage sessionId participants s.messages.length resp] := by
  unfold sendVoiceMessage
  split
  · exact Or.inl rfl
  · exact Or.inr rfl

theorem startRecording_messages (s : ArenaState) :
    (startRecording s).messages = s.messages := by
  unfold startRecording
  split <;> rfl

theorem startRecording_limited (s : ArenaState)
    (h : hasReachedLimit s = true) :
    startRecording s = { s with error := some turnLimitErrorMessage } := by
  unfold startRecording
  rw [if_pos h]

theorem generateNextTurn_success (sessionId now : String) (s : ArenaState)
    (resp : TurnResponse) (h : s.isGeneratingTurn = false) :
    generateNextTurn sessionId DebateMode.figureVsFigure now s resp =
      { s with
        messages := s.messages ++
          [mkAutoMessage sessionId now s.messages.length resp.message],
        error := none,
        currentTurn := resp.current_turn,
        maxTurns := resp.max_turns,
        showGameOver :=
          if resp.max_turns * 2 ≤ resp.current_turn then true
          else s.showGameOver } := by
  unfold generateNextTurn
  rw [if_neg (by simp), if_neg (by simp [h])]

theorem generateNextTurn_messages_cases (sessionId : String)
    (mode : DebateMode) (now : String) (s : ArenaState) (resp : TurnResponse) :
    (generateNextTurn sessionId mode now s resp).messages = s.messages ∨
    (generateNextTurn sessionId mode now s resp).messages =
      s.messages ++
        [mkAutoMessage sessionId now s.messages.length resp.message] := by
  unfold generateNextTurn
  split
  · exact Or.inl rfl
  · split
    · exact Or.inl rfl
    · exact Or.inr rfl

theorem evaluateLastExchange_cases (s : ArenaState)
    (r : Option (JudgeEvaluation × CumulativeScores)) :
    evaluateLastExchange s r = s ∨
    ∃ ev cum,
      evaluateLastExchange s r =
        { s with
          latestEvaluation := some ev, cumulativeScores := some cum } := by
  unfold evaluateLastExchange
  split
  · exact Or.inl rfl
  · split
    · split
      · exact Or.inr ⟨_, _, rfl⟩
      · exact Or.inl rfl
    · exact Or.inl rfl

theorem evaluateLastExchange_messages (s : ArenaState)
    (r : Option (JudgeEvaluation × CumulativeScores)) :
    (evaluateLastExchange s r).messages = s.messages := by
  rcases evaluateLastExchange_cases s r with h | ⟨ev, cum, h⟩ <;> rw [h]

theorem evaluateLastExchange_count (s : ArenaState)
    (r : Option (JudgeEvaluation × CumulativeScores)) :
    (evaluateLastExchange s r).userTurnCount = s.userTurnCount := by
  rcases evaluateLastExchange_cases s r with h | ⟨ev, cum, h⟩ <;> rw [h]

theorem evaluateLastExchange_failure (s : ArenaState) :
    evaluateLastExchange s none = s := by
  unfold evaluateLastExchange
  split
  · rfl
  · split
    · rfl
    · rfl

theorem turnNumbersCanonical_append (msgs : List DebateMessage)
    (m : DebateMessage) (hc : turnNumbersCanonical msgs)
    (hm : m.turn_number = msgs.length + 1) :
    turnNumbersCanonical (msgs ++ [m]) := by
  intro i h
  rcases Nat.lt_or_ge i msgs.length with hi | hi
  · have he : (msgs ++ [m]).get ⟨i, h⟩ = msgs.get ⟨i, hi⟩ := by
      simp only [List.get_eq_getElem]
      exact List.getElem_append_left hi
    rw [he]
    exact hc i hi
  · have hlen : i = msgs.length := by
      have hlt : i < msgs.length + 1 := by
        simpa using h
      omega
    subst hlen
    have he : (msgs ++ [m]).get ⟨msgs.length, h⟩ = m := by
      simp [List.get_eq_getElem]
    rw [he, hm]

theorem turnNumbersCanonical_append₂ (msgs : List DebateMessage)
    (u a : DebateMessage) (hc : turnNumbersCanonical msgs)
    (hu : u.turn_number = msgs.length + 1)
    (ha : a.turn_number = msgs.length + 2) :
    turnNumbersCanonical (msgs ++ [u, a]) := by
  have hsplit : msgs ++ [u, a] = (msgs ++ [u]) ++ [a] := by simp
  rw [hsplit]
  refine turnNumbersCanonical_append (msgs ++ [u]) a
    (turnNumbersCanonical_append msgs u hc hu) ?_
  simp [ha]

theorem arenaReachable_canonical (sessionId : String)
    (participants : List String) (mode : DebateMode) (s : ArenaState)
    (h : ArenaReachable sessionId participants mode s) :
    turnNumbersCanonical s.messages := by
  induction h with
  | init =>
      intro i hi
      simp [initialArenaState] at hi
  | typeInput t input _ ih => exact ih
  | send t resp _ ih =>
      rcases handleSendMessage_messages_cases sessionId participants t resp
        with he | he
      · rw [he]; exact ih
      · rw [he]; exact turnNumbersCanonical_append₂ _ _ _ ih rfl rfl
  | sendFail t e _ ih =>
      rw [handleSendMessageFailure_messages]; exact ih
  | voice t resp _ ih =>
      rcases sendVoiceMessage_messages_cases sessionId participants t resp
        with he | he
      · rw [he]; exact ih
      · rw [he]; exact turnNumbersCanonical_append₂ _ _ _ ih rfl rfl
  | record t _ ih =>
      rw [startRecording_messages]; exact ih
  | auto t now resp _ ih =>
      rcases generateNextTurn_messages_cases sessionId mode now t resp
        with he | he
      · rw [he]; exact ih
      · rw [he]; exact turnNumbersCanonical_append _ _ ih rfl
  | eval t r _ ih =>
      rw [evaluateLastExchange_messages]; exact ih

theorem userAdvances_length (sessionId : String) (participants : List String)
    (s : ArenaState) (N : Nat) (s' : ArenaState)
    (h : UserAdvances sessionId participants s N s') :
    s'.messages.length = s.messages.length + 2 * N := by
  induction h with
  | zero => simp
  | typeInput n u input _ ih => exact ih
  | succ n u resp _ h1 h2 h3 ih =>
      rw [handleSendMessage_success sessionId participants u resp h1 h2 h3]
      dsimp only
      simp only [List.length_append, List.length_cons, List.length_nil]
      omega

theorem userAdvances_count (sessionId : String) (participants : List String)
    (s : ArenaState) (N : Nat) (s' : ArenaState)
    (h : UserAdvances sessionId participants s N s') :
    s'.userTurnCount = s.userTurnCount + N := by
  induction h with
  | zero => simp
  | typeInput n u input _ ih => exact ih
  | succ n u resp _ h1 h2 h3 ih =>
      rw [handleSendMessage_success sessionId participants u resp h1 h2 h3]
      dsimp only
      omega

theorem autoAdvances_length (sessionId : String) (s : ArenaState) (N : Nat)
    (s' : ArenaState) (h : AutoAdvances sessionId s N s') :
    s'.messages.length = s.messages.length + N := by
  induction h with
  | zero => simp
  | succ n u now resp _ hg ih =>
      rw [generateNextTurn_success sessionId now u resp hg]
      dsimp only
      simp only [List.length_append, List.length_cons, List.length_nil]
      omega

theorem processStream_serverStream (produced : List DebateMessage)
    (failure : Option String) (extra : List StreamEvent) :
    processStream (serverStream produced failure ++ extra) =
      (produced,
        match failure with
        | some msg => StreamOutcome.errored msg
        | none => StreamOutcome.completed) := by
  induction produced with
  | nil =>
      rcases failure with _ | msg <;>
        simp [serverStream, processStream]
  | cons m rest ih =>
      have hsplit : serverStream (m :: rest) failure ++ extra =
          StreamEvent.debateMessage m :: (serverStream rest failure ++ extra) := by
        simp [serverStream]
      rw [hsplit]
      simp [processStream, ih]

theorem nextTurnDisabled_false (s : ArenaState)
    (h : nextTurnDisabled s = false) :
    s.isSendingMessage = false ∧ s.isGeneratingTurn = false ∧
      s.currentTurn < s.maxTurns * 2 := by
  unfold nextTurnDisabled at h
  simp only [Bool.or_eq_false_iff, decide_eq_false_iff_not, Nat.not_le] at h
  exact ⟨h.1.1, h.1.2, h.2⟩

theorem figureReachable_bound (sessionId : String) (s : ArenaState)
    (h : FigureReachable sessionId s) :
    s.currentTurn ≤ s.maxTurns * 2 := by
  induction h with
  | init => simp [initialArenaState]
  | next t payload now _ hdis ih =>
      obtain ⟨hsend, hgen, hlt⟩ := nextTurnDisabled_false t hdis
      rw [generateNextTurn_success sessionId now t
        (backendAutoResponse t payload) hgen]
      dsimp only [backendAutoResponse]
      omega

/-! ### Claim theorems -/

/-- C1: for every session view and every number N of successful turn-advance
operations, the message-list length equals its starting (opening) count plus
2×N in user-vs-persona mode — each advance appending exactly one user message
and one participant message — and plus N in persona-vs-persona mode, each
single-speaker advance appending exactly one participant message. -/
theorem message_count_after_advances :
    (∀ (sessionId : String) (participants : List String) (s : ArenaState)
       (N : Nat) (s' : ArenaState),
       UserAdvances sessionId participants s N s' →
       s'.messages.length = s.messages.length + 2 * N) ∧
    (∀ (sessionId : String) (s : ArenaState) (N : Nat) (s' : ArenaState),
       AutoAdvances sessionId s N s' →
       s'.messages.length = s.messages.length + N) ∧
    (∀ (sessionId : String) (participants : List String) (s : ArenaState)
       (resp : SendResponse),
       jsTrim s.userInput ≠ "" → s.isSendingMessage = false →
       hasReachedLimit s = false →
       (handleSendMessage sessionId participants s resp).messages =
         s.messages ++
           [mkUserMessage sessionId s.messages.length resp,
            mkAiMessage sessionId participants s.messages.length resp] ∧
       (mkUserMessage sessionId s.messages.length resp).role =
         DebateRole.user ∧
       (mkAiMessage sessionId participants s.messages.length resp).role =
         DebateRole.participant) ∧
    (∀ (sessionId now : String) (s : ArenaState) (resp : TurnResponse),
       s.isGeneratingTurn = false →
       (generateNextTurn sessionId DebateMode.figureVsFigure now s
           resp).messages =
         s.messages ++
           [mkAutoMessage sessionId now s.messages.length resp.message] ∧
       (mkAutoMessage sessionId now s.messages.length resp.message).role =
         DebateRole.participant) := by
  refine ⟨userAdvances_length, autoAdvances_length, ?_, ?_⟩
  · intro sessionId participants s resp h1 h2 h3
    rw [handleSendMessage_success sessionId participants s resp h1 h2 h3]
    exact ⟨rfl, rfl, rfl⟩
  · intro sessionId now s resp hg
    rw [generateNextTurn_success sessionId now s resp hg]
    exact ⟨rfl, rfl⟩

theorem demoAdvances1 :
    UserAdvances "s1" ["lincoln"] initialArenaState 1 demoS1 :=
  UserAdvances.succ initialArenaState 0 demoStart demoSend
    (UserAdvances.typeInput initialArenaState 0 initialArenaState "hello"
      (UserAdvances.zero initialArenaState))
    (by decide) rfl (by decide)

theorem demoAdvances2 :
    UserAdvances "s1" ["lincoln"] initialArenaState 2 demoS2 :=
  UserAdvances.succ initialArenaState 1 demoS1Typed demoSend
    (UserAdvances.typeInput initialArenaState 1 demoS1 "again" demoAdvances1)
    (by decide) (by decide) (by decide)

theorem demoAdvances4 :
    UserAdvances "s1" ["lincoln"] initialArenaState 4 demoS4 :=
  UserAdvances.succ initialArenaState 3 demoS3Typed demoSend
    (UserAdvances.typeInput initialArenaState 3 demoS3 "fourth"
      (UserAdvances.succ initialArenaState 2 demoS2Typed demoSend
        (UserAdvances.typeInput initialArenaState 2 demoS2 "third"
          demoAdvances2)
        (by decide) (by decide) (by decide)))
    (by decide) (by decide) (by decide)

theorem demoAuto1 : AutoAdvances "s1" initialArenaState 1 demoF1 :=
  AutoAdvances.succ initialArenaState 0 initialArenaState "0"
    (backendAutoResponse initialArenaState demoPayload)
    (AutoAdvances.zero initialArenaState) rfl

/-- Witness for C1: two successful text sends yield four messages; one
automatic figure turn yields one message. -/
theorem message_count_after_advances_witness :
    demoS2.messages.length = initialArenaState.messages.length + 2 * 2 ∧
    demoF1.messages.length = initialArenaState.messages.length + 1 :=
  ⟨message_count_after_advances.1 "s1" ["lincoln"] initialArenaState 2 demoS2
     demoAdvances2,
   message_count_after_advances.2.1 "s1" initialArenaState 1 demoF1 demoAuto1⟩

/-- C2: in every reachable arena state, each message's turn number equals its
1-based position in the message list, so turn numbers are strictly increasing
integers starting at 1 with no gaps. -/
theorem turn_numbers_match_positions (sessionId : String)
    (participants : List String) (mode : DebateMode) (s : ArenaState)
    (h : ArenaReachable sessionId participants mode s) :
    (∀ i (hi : i < s.messages.length),
       (s.messages.get ⟨i, hi⟩).turn_number = i + 1) ∧
    (∀ i (hi : i + 1 < s.messages.length),
       (s.messages.get ⟨i + 1, hi⟩).turn_number =
         (s.messages.get ⟨i, Nat.lt_of_succ_lt hi⟩).turn_number + 1) ∧
    (∀ h0 : 0 < s.messages.length,
       (s.messages.get ⟨0, h0⟩).turn_number = 1) := by
  have hc := arenaReachable_canonical sessionId participants mode s h
  refine ⟨hc, ?_, ?_⟩
  · intro i hi
    rw [hc (i + 1) hi, hc i (Nat.lt_of_succ_lt hi)]
  · intro h0
    exact hc 0 h0

theorem demoS1_reachable :
    ArenaReachable "s1" ["lincoln"] DebateMode.userVsFigure demoS1 :=
  ArenaReachable.send demoStart demoSend
    (ArenaReachable.typeInput initialArenaState "hello" ArenaReachable.init)

/-- Witness for C2: after one send, the two messages carry turn numbers 1
and 2 at positions 0 and 1. -/
theorem turn_numbers_match_positions_witness :
    (demoS1.messages.get ⟨0, by decide⟩).turn_number = 1 ∧
    (demoS1.messages.get ⟨1, by decide⟩).turn_number = 2 := by
  have h := turn_numbers_match_positions "s1" ["lincoln"]
    DebateMode.userVsFigure demoS1 demoS1_reachable
  exact ⟨h.2.2 (by decide), h.1 1 (by decide)⟩

/-- C3: modelled backend sessions move only along
waiting → active → completed: a successful turn-advance never lowers the
status rank, never starts from `completed`, and never returns to `waiting`;
on a completed session the advance fails with `SessionCompleted` and returns
no new session; and the frontend counterpart — a send against a
limit-reached arena — appends no message, keeps the turn count, and stays in
the limit-reached state. -/
theorem session_status_machine :
    (∀ (s : Session) (msgs : List DebateMessage) (s' : Session),
       advanceTurn s msgs = Except.ok s' →
       statusRank s.status ≤ statusRank s'.status ∧
       s.status ≠ SessionStatus.completed ∧
       s'.status ≠ SessionStatus.waiting) ∧
    (∀ (s : Session) (msgs : List DebateMessage),
       s.status = SessionStatus.completed →
       advanceTurn s msgs = Except.error DebateError.SessionCompleted ∧
       ∀ s', advanceTurn s msgs ≠ Except.ok s') ∧
    (∀ (sessionId : String) (participants : List String) (s : ArenaState)
       (resp : SendResponse),
       hasReachedLimit s = true →
       (handleSendMessage sessionId participants s resp).messages =
         s.messages ∧
       (handleSendMessage sessionId participants s resp).userTurnCount =
         s.userTurnCount ∧
       hasReachedLimit (handleSendMessage sessionId participants s resp) =
         true) := by
  refine ⟨?_, ?_, ?_⟩
  · intro s msgs s' h
    unfold advanceTurn at h
    by_cases hc : s.status = SessionStatus.completed
    · rw [if_pos hc] at h
      exact absurd h (by simp)
    · rw [if_neg hc] at h
      injection h with h
      subst h
      refine ⟨?_, hc, ?_⟩
      · have h1 : statusRank s.status ≤ 1 := by
          cases hst : s.status
          case waiting => simp [statusRank]
          case active => simp [statusRank]
          case completed => exact absurd hst hc
        refine h1.trans ?_
        dsimp only
        split
        · simp [statusRank]
        · simp [statusRank]
      · dsimp only
        split
        · simp
        · simp
  · intro s msgs hc
    constructor
    · unfold advanceTurn
      rw [if_pos hc]
    · intro s' h
      unfold advanceTurn at h
      rw [if_pos hc] at h
      exact absurd h (by simp)
  · intro sessionId participants s resp h
    rcases handleSendMessage_limited sessionId participants s resp h
      with ⟨h1, h2⟩
    refine ⟨h1, h2, ?_⟩
    unfold hasReachedLimit at h ⊢
    rw [h2]
    exact h

/-- Witness for C3: advancing a completed session fails with
`SessionCompleted`; a waiting session advances without lowering the status
rank; and a send against the limit-reached arena appends nothing. -/
theorem session_status_machine_witness :
    advanceTurn demoCompletedSession [] =
      Except.error DebateError.SessionCompleted ∧
    statusRank demoWaitingSession.status ≤
      statusRank demoAdvancedSession.status ∧
    (handleSendMessage "s1" ["lincoln"] demoLimitState demoSend).messages =
      demoLimitState.messages := by
  refine ⟨(session_status_machine.2.1 demoCompletedSession [] rfl).1, ?_, ?_⟩
  · exact (session_status_machine.1 demoWaitingSession [] demoAdvancedSession
      rfl).1
  · exact (session_status_machine.2.2 "s1" ["lincoln"] demoLimitState demoSend
      (by decide)).1

/-- C4: the judge's winner is the side with the strictly greater total (equal
totals give a tie), and the cumulative fold's per-side totals are the sums of
the individual evaluations' per-side totals, with `overall_winner` equal to
`user` iff the user sum is strictly greater, `ai` iff strictly smaller, and
`tie` otherwise. -/
theorem cumulative_scores_and_winner :
    (∀ u a : Nat,
       (decideWinner u a = Winner.user ↔ a < u) ∧
       (decideWinner u a = Winner.ai ↔ u < a) ∧
       (decideWinner u a = Winner.tie ↔ u = a)) ∧
    (∀ evals : List JudgeEvaluation,
       (getCumulative evals).user_cumulative_score =
         (evals.map (fun e => e.user_scores.total)).sum ∧
       (getCumulative evals).ai_cumulative_score =
         (evals.map (fun e => e.ai_scores.total)).sum ∧
       (getCumulative evals).exchanges_evaluated = evals.length ∧
       ((getCumulative evals).overall_winner = Winner.user ↔
         (evals.map (fun e => e.ai_scores.total)).sum <
           (evals.map (fun e => e.user_scores.total)).sum) ∧
       ((getCumulative evals).overall_winner = Winner.ai ↔
         (evals.map (fun e => e.user_scores.total)).sum <
           (evals.map (fun e => e.ai_scores.total)).sum) ∧
       ((getCumulative evals).overall_winner = Winner.tie ↔
         (evals.map (fun e => e.user_scores.total)).sum =
           (evals.map (fun e => e.ai_scores.total)).sum)) := by
  have hdw : ∀ u a : Nat,
      (decideWinner u a = Winner.user ↔ a < u) ∧
      (decideWinner u a = Winner.ai ↔ u < a) ∧
      (decideWinner u a = Winner.tie ↔ u = a) := by
    intro u a
    unfold decideWinner
    by_cases h1 : a < u
    · simp only [if_pos h1]
      refine ⟨?_, ?_, ?_⟩ <;> constructor <;> intro h
      · exact h1
      · trivial
      · exact absurd h (by simp)
      · omega
      · exact absurd h (by simp)
      · omega
    · by_cases h2 : u < a
      · simp only [if_neg h1, if_pos h2]
        refine ⟨?_, ?_, ?_⟩ <;> constructor <;> intro h
        · exact absurd h (by simp)
        · omega
        · exact h2
        · trivial
        · exact absurd h (by simp)
        · omega
      · simp only [if_neg h1, if_neg h2]
        refine ⟨?_, ?_, ?_⟩ <;> constructor <;> intro h
        · exact absurd h (by simp)
        · omega
        · exact absurd h (by simp)
        · omega
        · omega
        · trivial
  refine ⟨hdw, ?_⟩
  intro evals
  exact ⟨rfl, rfl, rfl, (hdw _ _).1, (hdw _ _).2.1, (hdw _ _).2.2⟩

/-- C5: with at least two participants in figure-vs-figure mode, the next
speaker is `participants[messages.length % 2]` — the parity flips with every
appended message, starting with `participants[0]` on an even count. -/
theorem next_speaker_alternates (participants : List String)
    (messages : List DebateMessage) (h2 : 2 ≤ participants.length) :
    getNextSpeaker DebateMode.figureVsFigure participants messages =
      participants[messages.length % 2]? ∧
    (∀ m : DebateMessage,
       getNextSpeaker DebateMode.figureVsFigure participants
           (messages ++ [m]) =
         participants[(messages.length + 1) % 2]?) ∧
    (messages.length % 2 = 0 →
       getNextSpeaker DebateMode.figureVsFigure participants messages =
         participants[0]?) ∧
    (messages.length + 1) % 2 ≠ messages.length % 2 := by
  have hng : ¬ (DebateMode.figureVsFigure ≠ DebateMode.figureVsFigure ∨
      participants.length < 2) := by
    simp
    omega
  refine ⟨?_, ?_, ?_, ?_⟩
  · unfold getNextSpeaker
    rw [if_neg hng]
  · intro m
    unfold getNextSpeaker
    rw [if_neg hng]
    simp
  · intro h0
    unfold getNextSpeaker
    rw [if_neg hng, h0]
  · omega

/-- Witness for C5: with the participants lincoln and tesla and no messages
yet, the next speaker is lincoln. -/
theorem next_speaker_alternates_witness :
    getNextSpeaker DebateMode.figureVsFigure ["lincoln", "tesla"] [] =
      some "lincoln" := by
  rw [(next_speaker_alternates ["lincoln", "tesla"] [] (by decide)).1]
  rfl

/-- C6: in figure-vs-figure mode the arena's `currentTurn` never exceeds
`maxTurns * 2` (the configured limit times the two participants) along any
reachable click sequence, and once `currentTurn` reaches `maxTurns * 2` the
Next Turn button is disabled, so no further turn is generated. -/
theorem current_turn_within_limit :
    (∀ (sessionId : String) (s : ArenaState),
       FigureReachable sessionId s → s.currentTurn ≤ s.maxTurns * 2) ∧
    (∀ s : ArenaState, s.maxTurns * 2 ≤ s.currentTurn →
       nextTurnDisabled s = true) := by
  refine ⟨figureReachable_bound, ?_⟩
  intro s h
  unfold nextTurnDisabled
  simp [h]

theorem demoF1_reachable : FigureReachable "s1" demoF1 :=
  FigureReachable.next initialArenaState demoPayload "0"
    FigureReachable.init (by decide)

/-- Witness for C6: the bound holds after one generated turn, and a state at
the limit has its Next Turn button disabled. -/
theorem current_turn_within_limit_witness :
    demoF1.currentTurn ≤ demoF1.maxTurns * 2 ∧
    nextTurnDisabled demoAtLimit = true :=
  ⟨current_turn_within_limit.1 "s1" demoF1 demoF1_reachable,
   current_turn_within_limit.2 demoAtLimit (by decide)⟩

/-- C7: when the modelled server stream fails upstream, the SSE client
surfaces the typed error and halts — every message produced before the
failure is delivered and kept (the result lists exactly `produced`), and no
event after the error (or complete) event is delivered, whatever follows. -/
theorem stream_error_halts :
    (∀ (produced : List DebateMessage) (msg : String)
       (extra : List StreamEvent),
       processStream (serverStream produced (some msg) ++ extra) =
         (produced, StreamOutcome.errored msg)) ∧
    (∀ (produced : List DebateMessage) (extra : List StreamEvent),
       processStream (serverStream produced none ++ extra) =
         (produced, StreamOutcome.completed)) :=
  ⟨fun produced msg extra => processStream_serverStream produced (some msg)
     extra,
   fun produced extra => processStream_serverStream produced none extra⟩

/-- C8: judge evaluation runs after the turn's messages are appended (it is
composed after `handleSendMessage`) and never touches the message list, the
turn counter, or the limit state — and a failed evaluation (`none`) leaves
the whole arena state unchanged, only the score stays unavailable. -/
theorem evaluation_never_blocks_turns :
    ∀ (s : ArenaState) (r : Option (JudgeEvaluation × CumulativeScores)),
      (evaluateLastExchange s r).messages = s.messages ∧
      (evaluateLastExchange s r).userTurnCount = s.userTurnCount ∧
      (evaluateLastExchange s r).currentTurn = s.currentTurn ∧
      hasReachedLimit (evaluateLastExchange s r) = hasReachedLimit s ∧
      evaluateLastExchange s none = s ∧
      (∀ (sessionId : String) (participants : List String)
         (resp : SendResponse),
         (evaluateLastExchange
             (handleSendMessage sessionId participants s resp) r).messages =
           (handleSendMessage sessionId participants s resp).messages) := by
  intro s r
  refine ⟨evaluateLastExchange_messages s r, evaluateLastExchange_count s r,
    ?_, ?_, evaluateLastExchange_failure s, ?_⟩
  · rcases evaluateLastExchange_cases s r with h | ⟨ev, cum, h⟩ <;> rw [h]
  · unfold hasReachedLimit
    rw [evaluateLastExchange_count s r]
  · intro sessionId participants resp
    exact evaluateLastExchange_messages _ r

/-- C9: the arena enforces a hard-coded limit of exactly 4 user turns
(`MAX_USER_TURNS = 4`): after the 4th successful send the limit is reached,
text and voice input are disabled, and every further send or recording
attempt is rejected without appending a message — for every arena state
whatever its `maxTurns` (setup default 6, options 4 to 10) — while the
limit-reached error text nevertheless says the maximum is 6. -/
theorem hard_coded_user_turn_limit :
    MAX_USER_TURNS = 4 ∧
    defaultMaxTurns = 6 ∧
    maxTurnOptions = [4, 6, 8, 10] ∧
    turnLimitErrorMessage =
      "You have reached the maximum number of turns (6)." ∧
    (∀ s : ArenaState, hasReachedLimit s = true ↔ 4 ≤ s.userTurnCount) ∧
    (∀ (sessionId : String) (participants : List String) (N : Nat)
       (s' : ArenaState),
       UserAdvances sessionId participants initialArenaState N s' → 4 ≤ N →
       hasReachedLimit s' = true) ∧
    (∀ s : ArenaState, hasReachedLimit s = true →
       sendControlsDisabled s = true) ∧
    (∀ (sessionId : String) (participants : List String) (s : ArenaState)
       (resp : SendResponse),
       hasReachedLimit s = true →
       (handleSendMessage sessionId participants s resp).messages =
         s.messages ∧
       sendVoiceMessage sessionId participants s resp =
         { s with error := some turnLimitErrorMessage } ∧
       startRecording s = { s with error := some turnLimitErrorMessage }) := by
  refine ⟨rfl, rfl, rfl, rfl, ?_, ?_, ?_, ?_⟩
  · intro s
    unfold hasReachedLimit MAX_USER_TURNS
    simp
  · intro sessionId participants N s' h hN
    have hcount := userAdvances_count sessionId participants
      initialArenaState N s' h
    unfold hasReachedLimit
    have hzero : initialArenaState.userTurnCount = 0 := rfl
    rw [hcount, hzero]
    simpa [MAX_USER_TURNS] using hN
  · intro s h
    unfold sendControlsDisabled
    rw [h]
    simp
  · intro sessionId participants s resp h
    exact ⟨(handleSendMessage_limited sessionId participants s resp h).1,
      sendVoiceMessage_limited sessionId participants s resp h,
      startRecording_limited s h⟩

/-- Witness for C9: after four successful sends the limit is reached; at the
limit the controls are disabled, a voice send only sets the hard-coded error,
and so does a recording attempt. -/
theorem hard_coded_user_turn_limit_witness :
    hasReachedLimit demoS4 = true ∧
    sendControlsDisabled demoLimitState = true ∧
    sendVoiceMessage "s1" ["lincoln"] demoLimitState demoSend =
      { demoLimitState with error := some turnLimitErrorMessage } ∧
    startRecording demoLimitState =
      { demoLimitState with error := some turnLimitErrorMessage } := by
  refine ⟨?_, ?_, ?_, ?_⟩
  · exact hard_coded_user_turn_limit.2.2.2.2.2.1 "s1" ["lincoln"] 4 demoS4
      demoAdvances4 (by decide)
  · exact hard_coded_user_turn_limit.2.2.2.2.2.2.1 demoLimitState (by decide)
  · exact (hard_coded_user_turn_limit.2.2.2.2.2.2.2 "s1" ["lincoln"]
      demoLimitState demoSend (by decide)).2.1
  · exact (hard_coded_user_turn_limit.2.2.2.2.2.2.2 "s1" ["lincoln"]
      demoLimitState demoSend (by decide)).2.2

/-- C10: the scoreboard shows nothing until an exchange has been evaluated;
with non-negative cumulative scores u and a it shows u/(u+a)×100 and
a/(u+a)×100 when u+a > 0 and exactly 50/50 when u+a = 0, and the two
percentages always sum to 100. -/
theorem scoreboard_percentages :
    scoreboardView none = none ∧
    (∀ c : CumulativeScores, c.exchanges_evaluated = 0 →
       scoreboardView (some c) = none) ∧
    (∀ c : CumulativeScores, c.exchanges_evaluated ≠ 0 →
       0 < c.user_cumulative_score + c.ai_cumulative_score →
       scoreboardView (some c) = some
         { userScore := c.user_cumulative_score
           aiScore := c.ai_cumulative_score
           userPercentage := (c.user_cumulative_score : Rat) /
             ((c.user_cumulative_score : Rat) +
               (c.ai_cumulative_score : Rat)) * 100
           aiPercentage := (c.ai_cumulative_score : Rat) /
             ((c.user_cumulative_score : Rat) +
               (c.ai_cumulative_score : Rat)) * 100 }) ∧
    (∀ c : CumulativeScores, c.exchanges_evaluated ≠ 0 →
       c.user_cumulative_score + c.ai_cumulative_score = 0 →
       scoreboardView (some c) = some
         { userScore := c.user_cumulative_score
           aiScore := c.ai_cumulative_score
           userPercentage := 50
           aiPercentage := 50 }) ∧
    (∀ (c : CumulativeScores) (v : ScoreboardView),
       scoreboardView (some c) = some v →
       v.userPercentage + v.aiPercentage = 100) := by
  refine ⟨rfl, ?_, ?_, ?_, ?_⟩
  · intro c h0
    unfold scoreboardView
    dsimp only
    rw [if_pos h0]
  · intro c h0 hpos
    unfold scoreboardView
    dsimp only
    rw [if_neg h0]
    have hq : (0 : Rat) < (c.user_cumulative_score : Rat) +
        (c.ai_cumulative_score : Rat) := by
      exact_mod_cast hpos
    rw [if_pos hq, if_pos hq]
  · intro c h0 hz
    unfold scoreboardView
    dsimp only
    rw [if_neg h0]
    have hq : ¬ ((0 : Rat) < (c.user_cumulative_score : Rat) +
        (c.ai_cumulative_score : Rat)) := by
      have hcast : ((c.user_cumulative_score + c.ai_cumulative_score : Nat) :
          Rat) = 0 := by
        exact_mod_cast hz
      push_cast at hcast
      rw [hcast]
      exact lt_irrefl 0
    rw [if_neg hq, if_neg hq]
  · intro c v h
    unfold scoreboardView at h
    dsimp only at h
    split at h
    · exact absurd h (by simp)
    · injection h with h
      subst h
      dsimp only
      by_cases hq : (0 : Rat) < (c.user_cumulative_score : Rat) +
          (c.ai_cumulative_score : Rat)
      · rw [if_pos hq, if_pos hq]
        have hne : (c.user_cumulative_score : Rat) +
            (c.ai_cumulative_score : Rat) ≠ 0 := ne_of_gt hq
        field_simp
        ring
      · rw [if_neg hq, if_neg hq]
        norm_num

theorem demoView_eq : scoreboardView (some demoCum) = some demoView := by
  unfold scoreboardView
  dsimp only
  rw [if_neg (by decide)]
  norm_num [demoCum, demoView]

/-- Witness for C10: with cumulative scores 30 and 10 the scoreboard shows a
75/25 split, and the percentages sum to 100. -/
theorem scoreboard_percentages_witness :
    demoCum.exchanges_evaluated ≠ 0 ∧
    demoView.userPercentage + demoView.aiPercentage = 100 := by
  constructor
  · decide
  · exact scoreboard_percentages.2.2.2.2 demoCum demoView demoView_eq

/-- Witness for C4: over the two demo evaluations the cumulative user total is
77, and the overall winner is the user since 68 < 77. -/
theorem cumulative_scores_and_winner_witness :
    (getCumulative demoEvals).user_cumulative_score = 77 ∧
    (getCumulative demoEvals).overall_winner = Winner.user :=
  ⟨((cumulative_scores_and_winner.2 demoEvals).1).trans (by decide),
   ((cumulative_scores_and_winner.2 demoEvals).2.2.2.1).mpr (by decide)⟩

/-- Witness for C7: a two-message stream that then fails delivers both
messages and the typed error, ignoring any later event. -/
theorem stream_error_halts_witness :
    processStream
        (serverStream [] (some "upstream failed") ++ [StreamEvent.complete]) =
      ([], StreamOutcome.errored "upstream failed") :=
  stream_error_halts.1 [] "upstream failed" [StreamEvent.complete]

/-- Witness for C8: a failed evaluation right after the first send leaves the
two appended messages in place. -/
theorem evaluation_never_blocks_turns_witness :
    (evaluateLastExchange demoS1 none).messages = demoS1.messages ∧
    evaluateLastExchange demoS1 none = demoS1 :=
  ⟨(evaluation_never_blocks_turns demoS1 none).1,
   (evaluation_never_blocks_turns demoS1 none).2.2.2.2.1⟩
